import Mathlib

/-!
Verification of the metadata-resolution and resource-acquisition core of
the hoppscotch CLI (packages/hoppscotch-cli/src/utils/getters.ts).

The two functions under study are:
* getEffectiveFinalMetaData - pure template substitution over a list of
  header/parameter entries, with all-or-nothing validation;
* getResourceContents - the probe / remote-fetch / local-fallback protocol.

External collaborators (the template engine parseTemplateStringE, the file
reader readJsonFile, the document transformers, axios and the filesystem)
are modelled abstractly: the template engine is a function parameter, the
side-effecting collaborators are an explicit World record, and the call to
the external file reader is recorded symbolically by the arguments passed
to it.  JavaScript string truthiness (undefined and the empty string are
falsy) is modelled explicitly where the source relies on it.
-/

/-- One variable binding of an environment (key and value strings). -/
structure EnvironmentVariable where
  key : String
  value : String
  deriving Repr, DecidableEq

/-- An environment: an ordered sequence of variable bindings.  The source
calls this field variables; Lean reserves that identifier, so it is named
vars here. -/
structure Environment where
  vars : List EnvironmentVariable
  deriving Repr, DecidableEq

instance {ε α : Type} [DecidableEq ε] [DecidableEq α] : DecidableEq (Except ε α) := fun a b =>
  match a, b with
  | Except.error x, Except.error y => decidable_of_iff (x = y) (by simp)
  | Except.error _, Except.ok _ => Decidable.isFalse (by simp)
  | Except.ok _, Except.error _ => Decidable.isFalse (by simp)
  | Except.ok x, Except.ok y => decidable_of_iff (x = y) (by simp)

/-- One request header or query parameter (HoppRESTHeader / HoppRESTParam). -/
structure MetaDataEntry where
  key : String
  value : String
  active : Bool
  deriving Repr, DecidableEq

/-- Opaque error produced by the external template engine. -/
structure TemplateParseError where
  msg : String
  deriving Repr, DecidableEq

/-- The shape of the external template engine parseTemplateStringE:
substitute template variables in a string against the environment
variables, returning either the substituted string or a parse error. -/
def TemplateEngine : Type :=
  String → List EnvironmentVariable → Except TemplateParseError String

/-- One per-entry substitution outcome: the element produced by the A.map
step of getEffectiveFinalMetaData (key and value each carry an Either). -/
structure SubstEntry where
  active : Bool
  key : Except TemplateParseError String
  value : Except TemplateParseError String
  deriving Repr, DecidableEq

/-- A fully resolved header/parameter pair. -/
structure ResolvedEntry where
  active : Bool
  key : String
  value : String
  deriving Repr, DecidableEq

/-- The contextual data carried by a HoppCLIError: in the source it is
either a string, undefined, or the array of per-entry outcomes. -/
inductive ErrData where
  | undef : ErrData
  | str : String → ErrData
  | outcomes : List SubstEntry → ErrData
  deriving Repr, DecidableEq

/-- JS value passed as error data when the source passes a possibly
undefined string (such as serverUrl or accessToken). -/
def ErrData.ofOpt : Option String → ErrData
  | some s => ErrData.str s
  | none => ErrData.undef

/-- A HoppCLIError as built by the error helper: a code and contextual data. -/
structure HoppCLIError where
  code : String
  data : ErrData
  deriving Repr, DecidableEq

/-- The filter of getEffectiveFinalMetaData and getMetaDataPairs: keep only
entries with a non-empty key that are active. -/
def keepEntry (e : MetaDataEntry) : Bool :=
  !(e.key == "") && e.active

/-- The A.map step of getEffectiveFinalMetaData: substitute key and value
independently, forcing active to true. -/
def substEntry (parse : TemplateEngine) (environment : Environment)
    (e : MetaDataEntry) : SubstEntry :=
  { active := true
    key := parse e.key environment.vars
    value := parse e.value environment.vars }

/-- Whether a substitution outcome succeeded on both fields (the predicate
of the E.fromPredicate step: both eithers are Right). -/
def substOk (e : SubstEntry) : Bool :=
  e.key.isOk && e.value.isOk

/-- The A.filterMap step applied on success: keep an outcome only when
both of its eithers are Right, projecting the substituted strings. -/
def projectResolved (e : SubstEntry) : Option ResolvedEntry :=
  match e.key, e.value with
  | Except.ok k, Except.ok v => some { active := true, key := k, value := v }
  | _, _ => none

/-- getEffectiveFinalMetaData from getters.ts: filter to active non-empty
entries, substitute templates in keys and values, fail with PARSING_ERROR
carrying the whole outcome list if any field failed, otherwise project the
successful pairs. -/
def getEffectiveFinalMetaData (parse : TemplateEngine)
    (metaData : List MetaDataEntry) (environment : Environment) :
    Except HoppCLIError (List ResolvedEntry) :=
  let filtered := metaData.filter keepEntry
  let mapped := filtered.map (substEntry parse environment)
  if mapped.all substOk then
    Except.ok (mapped.filterMap projectResolved)
  else
    Except.error { code := "PARSING_ERROR", data := ErrData.outcomes mapped }

/-- The string held by a successful substitution outcome (empty string
for a failed one); used only to state the success-case projection. -/
def getOkD : Except TemplateParseError String → String
  | Except.ok s => s
  | Except.error _ => ""

/-- Opaque raw payload returned by the remote endpoint (the JSON body). -/
structure RawDoc where
  payload : String
  deriving Repr, DecidableEq

/-- The resourceType argument of getResourceContents. -/
inductive ResourceType where
  | collection : ResourceType
  | environment : ResourceType
  deriving Repr, DecidableEq

/-- The canonical document obtained by getResourceContents.  The external
transformers and the external file reader are modelled symbolically: each
constructor records which external collaborator produced the document and
the arguments it received. -/
inductive Contents where
  | fromRemoteCollection : RawDoc → Contents
  | fromRemoteEnvironment : RawDoc → Contents
  | fromFile : String → Bool → Contents
  deriving Repr, DecidableEq

/-- The response part of an AxiosError: HTTP status and the optional
structured reason field of the error payload. -/
structure AxiosErrResponse where
  status : Nat
  reason : Option String
  deriving Repr, DecidableEq

/-- The fields of an AxiosError (or a plain thrown Error) inspected by the
catch block: code, message and the optional response. -/
structure AxiosErrorModel where
  code : Option String
  message : String
  response : Option AxiosErrResponse
  deriving Repr, DecidableEq

/-- A successful axios response: raw data plus the content-type header. -/
structure AxiosResponse where
  data : RawDoc
  contentType : String
  deriving Repr, DecidableEq

/-- Outcome of the awaited axios.get call. -/
inductive AxiosOutcome where
  | success : AxiosResponse → AxiosOutcome
  | failure : AxiosErrorModel → AxiosOutcome
  deriving Repr, DecidableEq

/-- An HTTP request issued by getResourceContents: the URL and the value
of the Authorization header. -/
structure HttpRequest where
  url : String
  authorization : String
  deriving Repr, DecidableEq

/-- The external world getResourceContents interacts with: the outcome of
the fs.access probe for each path, and the outcome axios.get would return
for each request. -/
structure World where
  fileExists : String → Bool
  axios : HttpRequest → AxiosOutcome

/-- The argument record of getResourceContents. -/
structure AcquireArgs where
  pathOrId : String
  accessToken : Option String
  serverUrl : Option String
  resourceType : ResourceType
  deriving Repr, DecidableEq

/-- Result of a call: the returned document or raised error, together with
the list of network requests performed, in order. -/
structure AcquireResult where
  result : Except HoppCLIError Contents
  requests : List HttpRequest
  deriving Repr, DecidableEq

/-- JS truthiness of an optional string: undefined and the empty string
are falsy.  This is the test the source applies to accessToken. -/
def strTruthy : Option String → Bool
  | some s => !(s == "")
  | none => false

/-- The default server URL used when serverUrl is absent. -/
def defaultServerUrl : String := "https://api.hoppscotch.io"

/-- The endsWith slash test of the URL builder, stated on the character
list of the string so that it evaluates by kernel reduction. -/
def endsWithSlash (s : String) : Bool :=
  s.data.getLast? == some '/'

/-- The JS expression serverUrl || default of the source: a falsy
serverUrl (absent or the empty string) falls back to the default server
URL. -/
def hostnameOf (serverUrl : Option String) : String :=
  match serverUrl with
  | some s => if s == "" then defaultServerUrl else s
  | none => defaultServerUrl

/-- URL construction of the remote fetch: hostname (serverUrl with the
falsy fallback to the default), a slash unless the hostname already ends
with one, the fixed path segment, the resource-type literal, a slash, and
pathOrId. -/
def buildUrl (a : AcquireArgs) : String :=
  let hostname := hostnameOf a.serverUrl
  let separator := if endsWithSlash hostname then "" else "/"
  let resourcePath :=
    match a.resourceType with
    | ResourceType.collection => "collection"
    | ResourceType.environment => "environment"
  hostname ++ separator ++ "v1/access-tokens/" ++ resourcePath ++ "/" ++ a.pathOrId

/-- The GET request issued by the remote fetch, with its bearer-token
Authorization header. -/
def buildRequest (a : AcquireArgs) : HttpRequest :=
  { url := buildUrl a
    authorization := "Bearer " ++ a.accessToken.getD "" }

/-- Whether pat occurs as a contiguous run of l (the substring test). -/
def containsSub (l pat : List Char) : Bool :=
  match l with
  | [] => pat.isEmpty
  | _ :: rest => pat.isPrefixOf l || containsSub rest pat

/-- String.includes of JS: whether pat occurs as a substring of s.  Used
for the content-type check on the pattern application/json. -/
def includesSubstr (s pat : String) : Bool :=
  containsSub s.data pat.data

/-- The connection-refused test of the catch block. -/
def isConnRefused (err : AxiosErrorModel) : Bool :=
  err.code == some "ECONNREFUSED"

/-- The invalid-server-URL test of the catch block: the thrown
INVALID_CONTENT_TYPE message, a malformed-URL or DNS-failure code, or an
HTTP 404 response. -/
def isInvalidServerUrlErr (err : AxiosErrorModel) : Bool :=
  err.message == "INVALID_CONTENT_TYPE" ||
  err.code == some "ERR_INVALID_URL" ||
  err.code == some "ENOTFOUND" ||
  (match err.response with
   | some resp => resp.status == 404
   | none => false)

/-- The structured reason of the error payload, when truthy: the source
reads axiosErr.response.data.reason through optional chaining and then
tests it for truthiness, so an absent or empty reason yields none. -/
def truthyReason (err : AxiosErrorModel) : Option String :=
  match err.response with
  | some resp =>
    match resp.reason with
    | some r => if r == "" then none else some r
    | none => none
  | none => none

/-- Outcome of the try/catch around the remote fetch, given what axios
returned: either a fatal raised error, an obtained document, or a silent
fall-through to the local file read. -/
inductive RemoteStep where
  | fatal : HoppCLIError → RemoteStep
  | obtained : Contents → RemoteStep
  | fallthrough : RemoteStep
  deriving Repr, DecidableEq

/-- The try/catch body of getResourceContents.  A successful response with
a content-type not containing application/json throws INVALID_CONTENT_TYPE,
which the catch block classifies as INVALID_SERVER_URL (the thrown plain
Error has no code and no response, so only the message test matches). -/
def remoteStep (a : AcquireArgs) (outcome : AxiosOutcome) : RemoteStep :=
  match outcome with
  | AxiosOutcome.success resp =>
    if includesSubstr resp.contentType "application/json" then
      RemoteStep.obtained
        (match a.resourceType with
         | ResourceType.collection => Contents.fromRemoteCollection resp.data
         | ResourceType.environment => Contents.fromRemoteEnvironment resp.data)
    else
      RemoteStep.fatal { code := "INVALID_SERVER_URL", data := ErrData.ofOpt a.serverUrl }
  | AxiosOutcome.failure err =>
    if isConnRefused err then
      RemoteStep.fatal { code := "SERVER_CONNECTION_REFUSED", data := ErrData.ofOpt a.serverUrl }
    else if isInvalidServerUrlErr err then
      RemoteStep.fatal { code := "INVALID_SERVER_URL", data := ErrData.ofOpt a.serverUrl }
    else
      match truthyReason err with
      | some r =>
        RemoteStep.fatal
          { code := r
            data := if r == "TOKEN_EXPIRED" || r == "TOKEN_INVALID" then
                ErrData.ofOpt a.accessToken
              else
                ErrData.str a.pathOrId }
      | none => RemoteStep.fallthrough

/-- getResourceContents from getters.ts: probe the filesystem, attempt the
remote fetch when an access token is truthy and no local file exists, and
fall back to the external file reader (recorded symbolically with the
arguments passed: the path and the probe outcome) when no document was
obtained remotely. -/
def getResourceContents (w : World) (a : AcquireArgs) : AcquireResult :=
  let fileExistsInPath := w.fileExists a.pathOrId
  if strTruthy a.accessToken && !fileExistsInPath then
    let req := buildRequest a
    match remoteStep a (w.axios req) with
    | RemoteStep.fatal e => { result := Except.error e, requests := [req] }
    | RemoteStep.obtained c => { result := Except.ok c, requests := [req] }
    | RemoteStep.fallthrough =>
      { result := Except.ok (Contents.fromFile a.pathOrId fileExistsInPath)
        requests := [req] }
  else
    { result := Except.ok (Contents.fromFile a.pathOrId fileExistsInPath)
      requests := [] }

/-!
Concrete instantiations used to witness the theorems below.  The template
engine is external in the source, so any engine satisfying its shape may
instantiate the theorems; parseDemo substitutes strings starting with an
at-sign by looking the remainder up among the environment variables.
-/

/-- A small concrete template engine used by the witnesses. -/
def parseDemo : TemplateEngine := fun s vs =>
  if s.data.head? == some '@' then
    match vs.find? (fun v => v.key == String.mk (s.data.drop 1)) with
    | some v => Except.ok v.value
    | none => Except.error { msg := s }
  else
    Except.ok s

/-- Environment binding token to abc (scenario A of the specification). -/
def demoEnv : Environment := { vars := [{ key := "token", value := "abc" }] }

/-- The empty environment (scenario B of the specification). -/
def demoEmptyEnv : Environment := { vars := [] }

/-- Scenario A metadata: one active entry whose value is a template. -/
def demoGoodList : List MetaDataEntry :=
  [{ key := "X", value := "@token", active := true }]

/-- Scenario B metadata extended with a succeeding entry, an empty-key
entry and an inactive entry, to exercise filtering and aggregation. -/
def demoBadList : List MetaDataEntry :=
  [{ key := "X", value := "@missing", active := true },
   { key := "Y", value := "plain", active := true },
   { key := "", value := "y", active := true },
   { key := "Z", value := "w", active := false }]

/-- Arguments with a token, no serverUrl, collection resource. -/
def aTok : AcquireArgs :=
  { pathOrId := "abc123", accessToken := some "tok", serverUrl := none,
    resourceType := ResourceType.collection }

/-- Arguments with a token and an explicit serverUrl. -/
def aUrl : AcquireArgs :=
  { pathOrId := "abc123", accessToken := some "tok",
    serverUrl := some "https://example.com",
    resourceType := ResourceType.collection }

/-- Arguments with a token and an empty-string (falsy) serverUrl. -/
def aEmptyUrl : AcquireArgs :=
  { pathOrId := "abc123", accessToken := some "tok", serverUrl := some "",
    resourceType := ResourceType.collection }

/-- Arguments with an empty-string access token. -/
def aEmptyTok : AcquireArgs :=
  { pathOrId := "abc123", accessToken := some "", serverUrl := none,
    resourceType := ResourceType.collection }

/-- World where the local file exists and any network call would fail. -/
def wFile : World where
  fileExists := fun _ => true
  axios := fun _ => AxiosOutcome.failure
    { code := none, message := "unreachable", response := none }

/-- World with no local file and a connection-refused network error. -/
def wRefused : World where
  fileExists := fun _ => false
  axios := fun _ => AxiosOutcome.failure
    { code := some "ECONNREFUSED", message := "connect ECONNREFUSED", response := none }

/-- World with no local file and an HTTP 404 remote response error. -/
def wNotFound : World where
  fileExists := fun _ => false
  axios := fun _ => AxiosOutcome.failure
    { code := some "ERR_BAD_REQUEST", message := "Request failed with status code 404",
      response := some { status := 404, reason := none } }

/-- World with no local file and a remote error carrying the structured
reason TOKEN_EXPIRED (scenario E of the specification). -/
def wExpired : World where
  fileExists := fun _ => false
  axios := fun _ => AxiosOutcome.failure
    { code := some "ERR_BAD_REQUEST", message := "Request failed with status code 401",
      response := some { status := 401, reason := some "TOKEN_EXPIRED" } }

/-- World with no local file and an unclassified remote error: no code
match, no 404, no structured reason. -/
def wUnclassified : World where
  fileExists := fun _ => false
  axios := fun _ => AxiosOutcome.failure
    { code := some "ERR_BAD_RESPONSE", message := "Request failed with status code 500",
      response := some { status := 500, reason := none } }

/-- World with no local file and a successful remote JSON response. -/
def wRemoteOk : World where
  fileExists := fun _ => false
  axios := fun _ => AxiosOutcome.success
    { data := { payload := "doc" }, contentType := "application/json; charset=utf-8" }

/-!
Theorems about the MetadataResolver (getEffectiveFinalMetaData).
-/

/-- Claim C1: for every metadata list and environment, if any surviving
(active, non-empty-key) entry's key substitution or value substitution
fails, getEffectiveFinalMetaData returns a PARSING_ERROR failure, never a
partial success list, and the failure's data carries the entire array of
per-entry substitution outcomes, successes and failures alike. -/
theorem getEffectiveFinalMetaData_all_or_nothing
    (parse : TemplateEngine) (metaData : List MetaDataEntry)
    (environment : Environment)
    (h : ∃ e ∈ metaData.filter keepEntry,
      (parse e.key environment.vars).isOk = false ∨
      (parse e.value environment.vars).isOk = false) :
    getEffectiveFinalMetaData parse metaData environment =
      Except.error
        { code := "PARSING_ERROR"
          data := ErrData.outcomes
            ((metaData.filter keepEntry).map (substEntry parse environment)) } := by
  obtain ⟨e, he, hfail⟩ := h
  have hx : substOk (substEntry parse environment e) = false := by
    cases hfail with
    | inl h1 => simp [substOk, substEntry, h1]
    | inr h2 => simp [substOk, substEntry, h2]
  have hall :
      ((metaData.filter keepEntry).map (substEntry parse environment)).all substOk = false := by
    rw [Bool.eq_false_iff]
    intro hc
    have := (List.all_eq_true.mp hc) (substEntry parse environment e)
      (List.mem_map_of_mem (substEntry parse environment) he)
    rw [this] at hx
    exact absurd hx (by simp)
  simp [getEffectiveFinalMetaData, hall]

/-- Witness for claim C1, at scenario B extended with a succeeding entry:
the hypothesis holds and the call fails with the full outcome list. -/
theorem getEffectiveFinalMetaData_all_or_nothing_witness :
    (∃ e ∈ demoBadList.filter keepEntry,
      (parseDemo e.key demoEmptyEnv.vars).isOk = false ∨
      (parseDemo e.value demoEmptyEnv.vars).isOk = false) ∧
    getEffectiveFinalMetaData parseDemo demoBadList demoEmptyEnv =
      Except.error
        { code := "PARSING_ERROR"
          data := ErrData.outcomes
            [{ active := true
               key := Except.ok "X"
               value := Except.error { msg := "@missing" } },
             { active := true
               key := Except.ok "Y"
               value := Except.ok "plain" }] } :=
  ⟨by decide,
   getEffectiveFinalMetaData_all_or_nothing parseDemo demoBadList demoEmptyEnv (by decide)⟩

/-- When every surviving entry substitutes successfully, projecting the
outcome list keeps every element, in order, with the substituted strings. -/
lemma filterMap_projectResolved (parse : TemplateEngine) (environment : Environment) :
    ∀ l : List MetaDataEntry,
      (∀ e ∈ l, (parse e.key environment.vars).isOk = true ∧
        (parse e.value environment.vars).isOk = true) →
      (l.map (substEntry parse environment)).filterMap projectResolved =
        l.map (fun e =>
          { active := true
            key := getOkD (parse e.key environment.vars)
            value := getOkD (parse e.value environment.vars) }) := by
  intro l
  induction l with
  | nil => intro _; rfl
  | cons a rest ih =>
    intro h
    obtain ⟨hk, hv⟩ := h a (List.mem_cons_self a rest)
    have hrest := fun e he => h e (List.mem_cons_of_mem a he)
    cases hak : parse a.key environment.vars with
    | error _ => rw [hak] at hk; simp [Except.isOk, Except.toBool] at hk
    | ok k =>
      cases hav : parse a.value environment.vars with
      | error _ => rw [hav] at hv; simp [Except.isOk, Except.toBool] at hv
      | ok v =>
        simp only [List.map_cons, List.filterMap_cons, substEntry, hak, hav,
          projectResolved, getOkD, ih hrest]

/-- Claim C4: for every metadata list and environment in which every
surviving entry's key and value substitutions succeed,
getEffectiveFinalMetaData returns the substituted key/value pairs in the
insertion order of the filtered subsequence, each with active forced to
true. -/
theorem getEffectiveFinalMetaData_success_projection
    (parse : TemplateEngine) (metaData : List MetaDataEntry)
    (environment : Environment)
    (h : ∀ e ∈ metaData.filter keepEntry,
      (parse e.key environment.vars).isOk = true ∧
      (parse e.value environment.vars).isOk = true) :
    getEffectiveFinalMetaData parse metaData environment =
      Except.ok ((metaData.filter keepEntry).map (fun e =>
        { active := true
          key := getOkD (parse e.key environment.vars)
          value := getOkD (parse e.value environment.vars) })) := by
  have hall :
      ((metaData.filter keepEntry).map (substEntry parse environment)).all substOk = true := by
    rw [List.all_eq_true]
    intro x hx
    obtain ⟨e, he, rfl⟩ := List.mem_map.mp hx
    obtain ⟨hk, hv⟩ := h e he
    simp [substOk, substEntry, hk, hv]
  simp only [getEffectiveFinalMetaData, hall, if_true,
    filterMap_projectResolved parse environment (metaData.filter keepEntry) h]

/-- Witness for claim C4, at scenario A: all substitutions succeed and
the output is the single resolved pair with active forced to true. -/
theorem getEffectiveFinalMetaData_success_projection_witness :
    (∀ e ∈ demoGoodList.filter keepEntry,
      (parseDemo e.key demoEnv.vars).isOk = true ∧
      (parseDemo e.value demoEnv.vars).isOk = true) ∧
    getEffectiveFinalMetaData parseDemo demoGoodList demoEnv =
      Except.ok [{ active := true, key := "X", value := "abc" }] :=
  ⟨by decide,
   getEffectiveFinalMetaData_success_projection parseDemo demoGoodList demoEnv (by decide)⟩

/-- Unfolding the filter predicate: a kept entry is active and has a
non-empty key. -/
lemma keepEntry_spec (e : MetaDataEntry) (h : keepEntry e = true) :
    e.active = true ∧ ¬ e.key = "" := by
  simp only [keepEntry, Bool.and_eq_true, Bool.not_eq_eq_eq_not, Bool.not_true,
    beq_eq_false_iff_ne, ne_eq] at h
  exact ⟨h.2, h.1⟩

/-- Claim C3: getEffectiveFinalMetaData never considers an entry that is
inactive or has an empty key: every element of the per-entry outcome list
of a PARSING_ERROR failure, and every element of the successful output,
originates from an entry of the input that is active with a non-empty
key (via substitution of that entry). -/
theorem getEffectiveFinalMetaData_filter_invariant
    (parse : TemplateEngine) (metaData : List MetaDataEntry)
    (environment : Environment) :
    (∀ err, getEffectiveFinalMetaData parse metaData environment = Except.error err →
      ∀ outcomeList, err.data = ErrData.outcomes outcomeList →
        ∀ x ∈ outcomeList, ∃ e, e ∈ metaData ∧ e.active = true ∧ ¬ e.key = "" ∧
          x = substEntry parse environment e) ∧
    (∀ resolved, getEffectiveFinalMetaData parse metaData environment = Except.ok resolved →
      ∀ x ∈ resolved, ∃ e, e ∈ metaData ∧ e.active = true ∧ ¬ e.key = "" ∧
        parse e.key environment.vars = Except.ok x.key ∧
        parse e.value environment.vars = Except.ok x.value) := by
  constructor
  · intro err herr outcomeList hdata x hx
    by_cases hcond :
        ((metaData.filter keepEntry).map (substEntry parse environment)).all substOk = true
    · simp [getEffectiveFinalMetaData, hcond] at herr
    · simp only [getEffectiveFinalMetaData, if_neg hcond, Except.error.injEq] at herr
      rw [← herr] at hdata
      simp only [ErrData.outcomes.injEq] at hdata
      rw [← hdata] at hx
      obtain ⟨e, he, rfl⟩ := List.mem_map.mp hx
      obtain ⟨hmem, hkeep⟩ := List.mem_filter.mp he
      obtain ⟨hact, hkey⟩ := keepEntry_spec e hkeep
      exact ⟨e, hmem, hact, hkey, rfl⟩
  · intro resolved hres x hx
    by_cases hcond :
        ((metaData.filter keepEntry).map (substEntry parse environment)).all substOk = true
    · simp only [getEffectiveFinalMetaData, if_pos hcond, Except.ok.injEq] at hres
      rw [← hres] at hx
      obtain ⟨y, hy, hproj⟩ := List.mem_filterMap.mp hx
      obtain ⟨e, he, rfl⟩ := List.mem_map.mp hy
      obtain ⟨hmem, hkeep⟩ := List.mem_filter.mp he
      obtain ⟨hact, hkey⟩ := keepEntry_spec e hkeep
      refine ⟨e, hmem, hact, hkey, ?_⟩
      cases hak : parse e.key environment.vars with
      | error _ =>
        rw [projectResolved, substEntry] at hproj
        simp only [hak] at hproj
        cases hproj
      | ok k =>
        cases hav : parse e.value environment.vars with
        | error _ =>
          rw [projectResolved, substEntry] at hproj
          simp only [hak, hav] at hproj
          cases hproj
        | ok v =>
          rw [projectResolved, substEntry] at hproj
          simp only [hak, hav, Option.some.injEq] at hproj
          rw [← hproj]
          exact ⟨rfl, rfl⟩
    · simp [getEffectiveFinalMetaData, hcond] at hres

/-- Witness for claim C3: in the scenario-B failure the single aggregated
outcome originates from the active non-empty-key entry X. -/
theorem getEffectiveFinalMetaData_filter_invariant_witness :
    ∃ e, e ∈ demoBadList ∧ e.active = true ∧ ¬ e.key = "" ∧
      ({ active := true
         key := Except.ok "X"
         value := Except.error { msg := "@missing" } } : SubstEntry) =
        substEntry parseDemo demoEmptyEnv e :=
  (getEffectiveFinalMetaData_filter_invariant parseDemo demoBadList demoEmptyEnv).1
    { code := "PARSING_ERROR"
      data := ErrData.outcomes
        [{ active := true
           key := Except.ok "X"
           value := Except.error { msg := "@missing" } },
         { active := true
           key := Except.ok "Y"
           value := Except.ok "plain" }] }
    (by decide)
    [{ active := true
       key := Except.ok "X"
       value := Except.error { msg := "@missing" } },
     { active := true
       key := Except.ok "Y"
       value := Except.ok "plain" }]
    rfl
    { active := true
      key := Except.ok "X"
      value := Except.error { msg := "@missing" } }
    (by decide)

/-!
Theorems about the ResourceAcquirer (getResourceContents).
-/

/-- Claim C2: if the filesystem probe confirms a local file at pathOrId,
getResourceContents performs no network call, even when an access token is
supplied; it proceeds directly to the local file read. -/
theorem getResourceContents_probe_precedence (w : World) (a : AcquireArgs)
    (h : w.fileExists a.pathOrId = true) :
    (getResourceContents w a).requests = [] ∧
    (getResourceContents w a).result =
      Except.ok (Contents.fromFile a.pathOrId true) := by
  constructor <;> simp [getResourceContents, h]

/-- Witness for claim C2: the file exists, a token is supplied, and the
call issues no request and reads the local file. -/
theorem getResourceContents_probe_precedence_witness :
    wFile.fileExists aTok.pathOrId = true ∧
    (getResourceContents wFile aTok).requests = [] ∧
    (getResourceContents wFile aTok).result =
      Except.ok (Contents.fromFile aTok.pathOrId true) :=
  ⟨by decide, getResourceContents_probe_precedence wFile aTok (by decide)⟩

/-- Claim C5: during remote fetch, when the remote error carries a truthy
structured reason and is classified neither as connection-refused nor as
invalid-server-URL, getResourceContents raises an error whose code equals
that reason; its data is the access token exactly when the reason is
TOKEN_EXPIRED or TOKEN_INVALID, and otherwise the resource identifier. -/
theorem getResourceContents_structured_reason (w : World) (a : AcquireArgs)
    (err : AxiosErrorModel) (r : String)
    (htok : strTruthy a.accessToken = true)
    (hfs : w.fileExists a.pathOrId = false)
    (hax : w.axios (buildRequest a) = AxiosOutcome.failure err)
    (hcr : isConnRefused err = false)
    (hinv : isInvalidServerUrlErr err = false)
    (hr : truthyReason err = some r) :
    (getResourceContents w a).result =
      Except.error
        { code := r
          data := if r = "TOKEN_EXPIRED" ∨ r = "TOKEN_INVALID" then
              ErrData.ofOpt a.accessToken
            else
              ErrData.str a.pathOrId } := by
  by_cases htk : r = "TOKEN_EXPIRED" ∨ r = "TOKEN_INVALID" <;>
    simp [getResourceContents, htok, hfs, hax, remoteStep, hcr, hinv, hr, htk]

/-- Witness for claim C5, at scenario E: the remote error carries reason
TOKEN_EXPIRED and the raised error carries the access token as data. -/
theorem getResourceContents_structured_reason_witness :
    strTruthy aTok.accessToken = true ∧
    wExpired.fileExists aTok.pathOrId = false ∧
    (getResourceContents wExpired aTok).result =
      Except.error { code := "TOKEN_EXPIRED", data := ErrData.str "tok" } :=
  ⟨by decide, by decide,
   getResourceContents_structured_reason wExpired aTok
     { code := some "ERR_BAD_REQUEST", message := "Request failed with status code 401",
       response := some { status := 401, reason := some "TOKEN_EXPIRED" } }
     "TOKEN_EXPIRED" (by decide) (by decide) (by decide) (by decide) (by decide) (by decide)⟩

/-- Claim C6: during remote fetch, a thrown invalid-content-type, a
malformed-URL or DNS-failure error code, an HTTP 404 response, or a
successful response whose content-type does not contain application/json,
each cause getResourceContents to raise INVALID_SERVER_URL carrying the
serverUrl argument as data, with no fallback to the local file. -/
theorem getResourceContents_invalid_server_url (w : World) (a : AcquireArgs)
    (htok : strTruthy a.accessToken = true)
    (hfs : w.fileExists a.pathOrId = false)
    (hcase :
      (∃ err, w.axios (buildRequest a) = AxiosOutcome.failure err ∧
        isConnRefused err = false ∧ isInvalidServerUrlErr err = true) ∨
      (∃ resp, w.axios (buildRequest a) = AxiosOutcome.success resp ∧
        includesSubstr resp.contentType "application/json" = false)) :
    (getResourceContents w a).result =
      Except.error { code := "INVALID_SERVER_URL", data := ErrData.ofOpt a.serverUrl } := by
  obtain ⟨err, hax, hcr, hinv⟩ | ⟨resp, hax, hct⟩ := hcase <;>
    simp [getResourceContents, htok, hfs, hax, remoteStep, *]

/-- Witness for claim C6, at scenario D with an explicit serverUrl: a 404
remote response raises INVALID_SERVER_URL carrying that URL. -/
theorem getResourceContents_invalid_server_url_witness :
    strTruthy aUrl.accessToken = true ∧
    wNotFound.fileExists aUrl.pathOrId = false ∧
    (getResourceContents wNotFound aUrl).result =
      Except.error { code := "INVALID_SERVER_URL", data := ErrData.str "https://example.com" } :=
  ⟨by decide, by decide,
   getResourceContents_invalid_server_url wNotFound aUrl (by decide) (by decide)
     (Or.inl ⟨{ code := some "ERR_BAD_REQUEST",
                message := "Request failed with status code 404",
                response := some { status := 404, reason := none } },
       by decide, by decide, by decide⟩)⟩

/-- Counterexample to claim C7 as stated: when the caller omits serverUrl
and the default server URL is used for the request, the raised
SERVER_CONNECTION_REFUSED error does not carry the used server URL as
data; its data is the absent serverUrl argument. -/
theorem getResourceContents_connection_refused_counterexample :
    (getResourceContents wRefused aTok).result =
      Except.error { code := "SERVER_CONNECTION_REFUSED", data := ErrData.undef } ∧
    ¬ (getResourceContents wRefused aTok).result =
      Except.error { code := "SERVER_CONNECTION_REFUSED", data := ErrData.str defaultServerUrl } := by
  constructor <;> decide

/-- Claim C7 (amended): during remote fetch a connection-refused error
always causes getResourceContents to raise SERVER_CONNECTION_REFUSED with
no fallback to the local file; the contextual data is the caller-supplied
serverUrl argument, which is absent when the caller omitted serverUrl even
though the default server URL was used for the request. -/
theorem getResourceContents_connection_refused (w : World) (a : AcquireArgs)
    (err : AxiosErrorModel)
    (htok : strTruthy a.accessToken = true)
    (hfs : w.fileExists a.pathOrId = false)
    (hax : w.axios (buildRequest a) = AxiosOutcome.failure err)
    (hcr : isConnRefused err = true) :
    (getResourceContents w a).result =
      Except.error { code := "SERVER_CONNECTION_REFUSED", data := ErrData.ofOpt a.serverUrl } := by
  simp [getResourceContents, htok, hfs, hax, remoteStep, hcr]

/-- Witness for the amended claim C7, with an explicit serverUrl carried
as data. -/
theorem getResourceContents_connection_refused_witness :
    strTruthy aUrl.accessToken = true ∧
    wRefused.fileExists aUrl.pathOrId = false ∧
    (getResourceContents wRefused aUrl).result =
      Except.error { code := "SERVER_CONNECTION_REFUSED"
                     data := ErrData.str "https://example.com" } :=
  ⟨by decide, by decide,
   getResourceContents_connection_refused wRefused aUrl
     { code := some "ECONNREFUSED", message := "connect ECONNREFUSED", response := none }
     (by decide) (by decide) (by decide) (by decide)⟩

/-- Claim C8: when the remote fetch fails with an error matching none of
the classified kinds (not connection-refused, not invalid-server-URL, and
carrying no truthy structured reason), getResourceContents raises nothing
and silently falls back to the external file reader, passing along the
probe outcome (necessarily false on this path). -/
theorem getResourceContents_unclassified_fallback (w : World) (a : AcquireArgs)
    (err : AxiosErrorModel)
    (htok : strTruthy a.accessToken = true)
    (hfs : w.fileExists a.pathOrId = false)
    (hax : w.axios (buildRequest a) = AxiosOutcome.failure err)
    (hcr : isConnRefused err = false)
    (hinv : isInvalidServerUrlErr err = false)
    (hr : truthyReason err = none) :
    (getResourceContents w a).result =
      Except.ok (Contents.fromFile a.pathOrId (w.fileExists a.pathOrId)) ∧
    (getResourceContents w a).requests = [buildRequest a] := by
  constructor <;> simp [getResourceContents, htok, hfs, hax, remoteStep, hcr, hinv, hr]

/-- Witness for claim C8: a remote 500 with no reason falls through to the
file reader, which receives the path and the negative probe outcome. -/
theorem getResourceContents_unclassified_fallback_witness :
    strTruthy aTok.accessToken = true ∧
    wUnclassified.fileExists aTok.pathOrId = false ∧
    (getResourceContents wUnclassified aTok).result =
      Except.ok (Contents.fromFile aTok.pathOrId (wUnclassified.fileExists aTok.pathOrId)) ∧
    (getResourceContents wUnclassified aTok).requests = [buildRequest aTok] :=
  ⟨by decide, by decide,
   getResourceContents_unclassified_fallback wUnclassified aTok
     { code := some "ERR_BAD_RESPONSE", message := "Request failed with status code 500",
       response := some { status := 500, reason := none } }
     (by decide) (by decide) (by decide) (by decide) (by decide) (by decide)⟩

/-- Counterexample to claim C9 as stated: the produced URL is not the
plain concatenation of the base, the conditional slash, the segment
v1/access-tokens/, the resource-type literal and pathOrId — the code
inserts a further slash between the resource-type literal and pathOrId;
moreover the default host is substituted not only when serverUrl is
absent but also when it is the empty string (the JS falsy fallback), so
an empty serverUrl never yields an empty-host URL. -/
theorem getResourceContents_request_shape_counterexample :
    buildUrl aUrl = "https://example.com/v1/access-tokens/collection/abc123" ∧
    ¬ buildUrl aUrl =
      "https://example.com" ++ "/" ++ "v1/access-tokens/" ++ "collection" ++ "abc123" ∧
    buildUrl aEmptyUrl = "https://api.hoppscotch.io/v1/access-tokens/collection/abc123" ∧
    ¬ buildUrl aEmptyUrl =
      "" ++ "/" ++ "v1/access-tokens/" ++ "collection" ++ "/" ++ "abc123" := by
  refine ⟨by decide, by decide, by decide, by decide⟩

/-- Claim C9 (amended): whenever the remote fetch runs, exactly one GET is
issued; its URL is the concatenation of serverUrl (or the default when
serverUrl is falsy, that is absent or empty), a slash exactly when the
chosen base lacks a trailing slash, the segment v1/access-tokens/, the
resource-type literal, a slash, and pathOrId; its Authorization header is
Bearer followed by the token. -/
theorem getResourceContents_request_shape (w : World) (a : AcquireArgs)
    (htok : strTruthy a.accessToken = true)
    (hfs : w.fileExists a.pathOrId = false) :
    (getResourceContents w a).requests =
      [{ url :=
           hostnameOf a.serverUrl ++
           (if endsWithSlash (hostnameOf a.serverUrl) then "" else "/") ++
           "v1/access-tokens/" ++
           (match a.resourceType with
            | ResourceType.collection => "collection"
            | ResourceType.environment => "environment") ++
           "/" ++ a.pathOrId
         authorization := "Bearer " ++ a.accessToken.getD "" }] := by
  have key : (getResourceContents w a).requests = [buildRequest a] := by
    cases hstep : remoteStep a (w.axios (buildRequest a)) <;>
      simp [getResourceContents, htok, hfs, hstep]
  rw [key]
  simp [buildRequest, buildUrl]

/-- Witness for the amended claim C9, at an absent serverUrl and at an
empty-string serverUrl: both issue the request against the default host. -/
theorem getResourceContents_request_shape_witness :
    strTruthy aTok.accessToken = true ∧
    wRemoteOk.fileExists aTok.pathOrId = false ∧
    (getResourceContents wRemoteOk aTok).requests =
      [{ url := "https://api.hoppscotch.io/v1/access-tokens/collection/abc123"
         authorization := "Bearer tok" }] ∧
    (getResourceContents wRemoteOk aEmptyUrl).requests =
      [{ url := "https://api.hoppscotch.io/v1/access-tokens/collection/abc123"
         authorization := "Bearer tok" }] :=
  ⟨by decide, by decide,
   getResourceContents_request_shape wRemoteOk aTok (by decide) (by decide),
   getResourceContents_request_shape wRemoteOk aEmptyUrl (by decide) (by decide)⟩

/-- Claim C10: an access token supplied as the empty string is treated as
absent (string truthiness): the remote fetch is skipped and the local
file read is attempted directly, even when the probe found no local file. -/
theorem getResourceContents_empty_token (w : World) (a : AcquireArgs)
    (h : a.accessToken = some "") :
    (getResourceContents w a).requests = [] ∧
    (getResourceContents w a).result =
      Except.ok (Contents.fromFile a.pathOrId (w.fileExists a.pathOrId)) := by
  constructor <;> simp [getResourceContents, h, strTruthy]

/-- Witness for claim C10: empty-string token, no local file, yet no
request is issued and the file reader is invoked with the negative probe
outcome. -/
theorem getResourceContents_empty_token_witness :
    aEmptyTok.accessToken = some "" ∧
    wRemoteOk.fileExists aEmptyTok.pathOrId = false ∧
    (getResourceContents wRemoteOk aEmptyTok).requests = [] ∧
    (getResourceContents wRemoteOk aEmptyTok).result =
      Except.ok (Contents.fromFile aEmptyTok.pathOrId (wRemoteOk.fileExists aEmptyTok.pathOrId)) :=
  ⟨by decide, by decide, getResourceContents_empty_token wRemoteOk aEmptyTok (by decide)⟩
